import Mathlib

/-!
Verification of the RetrOS-Web style cache and approval workflow engine.

The definitions below are a shallow embedding of the JavaScript in
`src/background/background.js` and `src/popup/popup.js`:

* JavaScript objects whose fields are strings are modelled as association
  lists `JsObj := List (String × String)`; property read is first-match
  lookup and `Object.assign({}, old, upd)` is `objAssign`.
* The `chrome.storage.local` key `sites` (a record mapping domains to site
  objects) is `Sites := List (String × JsObj)`.
* `new Date().toISOString()` is modelled by threading an explicit `now`
  string into every operation that stamps a time.
* The asynchronous proxy call `generateStyle` is modelled by a `GenOutcome`
  parameter: the value the promise settles with (`ok css` for a successful
  response, `fail err` for a `{success:false, error}` response, `exn msg`
  for a rejected promise).
-/

/-- A JavaScript object with string-valued fields, as an association list.
Property read takes the first binding for the key. -/
abbrev JsObj := List (String × String)

/-- Property read `o[k]`: `some v` when the field is present, `none` for
`undefined`. -/
def objGet : JsObj → String → Option String
  | [], _ => none
  | (k, v) :: rest, key => if key = k then some v else objGet rest key

/-- Whether a field is present on the object. -/
def objHasKey (o : JsObj) (k : String) : Bool :=
  (objGet o k).isSome

/-- `Object.assign({}, old, upd)`: fields of `upd` win, remaining fields of
`old` are kept (observable as first-match lookup; key order is immaterial to
every property read). -/
def objAssign : JsObj → JsObj → JsObj
  | [], upd => upd
  | (k, v) :: rest, upd =>
      if objHasKey upd k then objAssign rest upd
      else (k, v) :: objAssign rest upd

/-- The `sites` record kept in `chrome.storage.local`, mapping a domain to
its site object. -/
abbrev Sites := List (String × JsObj)

/-- Lookup of `sites[domain]` before the `|| {}` default. -/
def sitesFind : Sites → String → Option JsObj
  | [], _ => none
  | (d, o) :: rest, domain => if domain = d then some o else sitesFind rest domain

/-- `sites[domain] = entry`: replace the binding in place, or append a new
one. -/
def sitesUpdate : Sites → String → JsObj → Sites
  | [], domain, entry => [(domain, entry)]
  | (d, o) :: rest, domain, entry =>
      if domain = d then (domain, entry) :: rest
      else (d, o) :: sitesUpdate rest domain entry

/-- `getSite` from background.js: `sites[domain] || {}`. -/
def getSite (sites : Sites) (domain : String) : JsObj :=
  (sitesFind sites domain).getD []

/-- `setSite` from background.js:
`sites[domain] = Object.assign({}, sites[domain] || {}, data)`. -/
def setSite (sites : Sites) (domain : String) (data : JsObj) : Sites :=
  sitesUpdate sites domain (objAssign (getSite sites domain) data)

/-- `Object.values(APPROVAL_STATES)` from background.js. -/
def APPROVAL_STATES : List String :=
  ["pending", "approved", "rejected", "processing"]

/-- `normalizeApprovalState` from background.js. `none` models an absent
(`undefined`) value; the empty string is the other falsy string, so both
take the `!state` branch. -/
def normalizeApprovalState : Option String → String
  | none => "pending"
  | some s =>
    if s = "" then "pending"
    else if APPROVAL_STATES.contains s then s
    else if s = "unknown" then "pending"
    else "pending"

/-- `APPROVAL_TRANSITIONS` from background.js; the final `else []` covers
both the explicit `approved: []` row and the `|| []` fallback for a key
outside the table. -/
def APPROVAL_TRANSITIONS (s : String) : List String :=
  if s = "pending" then ["approved", "rejected", "processing"]
  else if s = "rejected" then ["processing", "pending"]
  else if s = "processing" then ["pending", "rejected"]
  else []

/-- `canTransitionApproval` from background.js. -/
def canTransitionApproval (fromState : Option String) (toState : String) : Bool :=
  let f := normalizeApprovalState fromState
  if f = toState then false
  else (APPROVAL_TRANSITIONS f).contains toState

/-- The object passed to a message handler's callback: the relevant fields
of the `sendResponse` payloads in background.js. Fields that are absent in
a given response keep their `none` / default value. -/
structure JsResponse where
  success : Bool
  error : Option String := none
  message : Option String := none
  css : Option String := none
  errorCode : Option String := none
  data : Option JsObj := none
deriving Repr, DecidableEq

/-- `transitionApprovalState` from background.js. Returns the callback's
result object together with the storage contents after the call. -/
def transitionApprovalState (sites : Sites) (domain nextState now : String) :
    JsResponse × Sites :=
  let site := getSite sites domain
  let currentState := normalizeApprovalState (objGet site "approvalStatus")
  if canTransitionApproval (some currentState) nextState = false then
    ({ success := false,
       error := some ("Invalid approval transition " ++ currentState ++ " -> " ++ nextState),
       data := some site }, sites)
  else
    let sites' := setSite sites domain
      [("approvalStatus", nextState), ("approvalUpdatedAt", now)]
    ({ success := true, data := some (getSite sites' domain) }, sites')

/-- The value the `generateStyle(request)` promise settles with: a
successful proxy response carrying `css`, a `{success:false, error}` proxy
response, or a rejected promise whose error message is `msg` (the handler
substitutes a default when `msg` is falsy). -/
inductive GenOutcome where
  | ok (css : String)
  | fail (err : String)
  | exn (msg : String)
deriving Repr, DecidableEq

/-- The `GENERATE_STYLE` branch of the background message listener.
`proxyLoaded` models `typeof generateStyle !== 'undefined'`; the missing
field check models the `!domain || !era || !domDigest` guard (an absent or
empty payload field is falsy; both are modelled by `""`). -/
def handleGenerateStyle (sites : Sites) (domain era domDigest : String)
    (proxyLoaded : Bool) (outcome : GenOutcome) (now : String) :
    JsResponse × Sites :=
  if domain = "" ∨ era = "" ∨ domDigest = "" then
    ({ success := false,
       error := some "Missing required fields: domain, era, domDigest" }, sites)
  else if proxyLoaded = false then
    ({ success := false, error := some "Proxy client module not loaded" }, sites)
  else
    let tr := transitionApprovalState sites domain "processing" now
    if tr.1.success = false then
      ({ success := false, error := tr.1.error, data := tr.1.data }, tr.2)
    else
      let sites2 := setSite tr.2 domain [("cacheStatus", "processing")]
      match outcome with
      | .ok css => ({ success := true, css := some css }, sites2)
      | .fail err => ({ success := false, error := some err }, sites2)
      | .exn msg =>
          ({ success := false,
             error := some (if msg = "" then "Unknown error during generation" else msg),
             errorCode := some "GENERATION_ERROR" }, sites2)

/-- The `REGENERATE_STYLE` branch of the background message listener.
`sendResponse` fires as soon as the entry is marked; the `generateStyle`
promise inside only forwards a successful result to the content script via
`sendMessageToTab` (which injects CSS into the page and never touches
`chrome.storage`), and on failure only logs — so storage after this handler
does not depend on the generation outcome. The `data` field carries the
stored site object (the JS response nests it as `{feedback, site}`; the
feedback echo has no storage semantics and is not modelled). -/
def handleRegenerateStyle (sites : Sites) (domain now : String) :
    JsResponse × Sites :=
  let tr := transitionApprovalState sites domain "processing" now
  if tr.1.success = false then
    ({ success := false, error := tr.1.error, data := tr.1.data }, tr.2)
  else
    let sites2 := setSite tr.2 domain [("cacheStatus", "regenerating")]
    ({ success := true, message := some "Regeneration requested",
       data := some (getSite sites2 domain) }, sites2)

/-- The `APPLY_STYLE` branch of the background message listener.
`delivered` models whether `sendMessageToTab` resolved; on delivery the
handler marks the cache applied and requests a transition to `pending`
(ignoring that transition's own result), guarded by `if (domain)`. -/
def handleApplyStyle (sites : Sites) (domain css : String)
    (delivered : Bool) (now : String) : JsResponse × Sites :=
  if css = "" then
    ({ success := false, error := some "Missing css in payload" }, sites)
  else if delivered then
    let sites' :=
      if domain = "" then sites
      else
        let sites1 := setSite sites domain [("cacheStatus", "applied")]
        (transitionApprovalState sites1 domain "pending" now).2
    ({ success := true, message := some "Style applied" }, sites')
  else
    ({ success := false, error := some "delivery failed" }, sites)

/-- The `GET_SITE_STATUS` branch of the background message listener. -/
def handleGetSiteStatus (sites : Sites) (domain : String) :
    JsResponse × Sites :=
  if domain = "" then
    ({ success := false, error := some "Missing domain" }, sites)
  else
    let site := getSite sites domain
    let normalizedState := normalizeApprovalState (objGet site "approvalStatus")
    if objGet site "approvalStatus" ≠ some normalizedState then
      let site' := objAssign site [("approvalStatus", normalizedState)]
      let sites' := setSite sites domain [("approvalStatus", normalizedState)]
      ({ success := true,
         data := some (objAssign
           [("cacheStatus", "unknown"), ("approvalStatus", "pending")] site') },
       sites')
    else
      ({ success := true,
         data := some (objAssign
           [("cacheStatus", "unknown"), ("approvalStatus", "pending")] site) },
       sites)

/-- Startup normalization pass over one stored site object
(`normalizeStoredStates` body, per domain): assign the normalized status
only when it differs from the stored one. -/
def normalizeEntry (o : JsObj) : JsObj :=
  if objGet o "approvalStatus" =
      some (normalizeApprovalState (objGet o "approvalStatus")) then o
  else objAssign o
    [("approvalStatus", normalizeApprovalState (objGet o "approvalStatus"))]

/-- `normalizeStoredStates` from background.js: every stored domain's
`approvalStatus` is normalized in place and the record written back. -/
def normalizeStoredStates (sites : Sites) : Sites :=
  sites.map (fun p => (p.1, normalizeEntry p.2))

/-- JavaScript truthiness of a nullable string (`null`/`undefined` and `""`
are falsy). -/
def jsTruthy : Option String → Bool
  | none => false
  | some s => s != ""

/-- The feedback object the popup sends in the `REGENERATE_STYLE` payload:
`{preset: selectedFeedback, text: feedbackText}`. -/
structure FeedbackPayload where
  preset : Option String
  text : String
deriving Repr, DecidableEq

/-- `String.prototype.trim()`: drop whitespace from both ends (modelled
over the character list so that it evaluates). -/
def trimString (s : String) : String :=
  String.mk
    (((s.data.dropWhile Char.isWhitespace).reverse.dropWhile
      Char.isWhitespace).reverse)

/-- The validation prefix of `regenerateStyle` in popup.js: trims the free
text, and on `!selectedFeedback && !feedbackText` alerts and returns
without sending any message; otherwise the feedback is placed in the
`REGENERATE_STYLE` request payload. `.error` is the alert text (no request
is issued); `.ok` is the feedback object passed on. -/
def regenerateStyleFeedback (selectedFeedback : Option String)
    (rawText : String) : Except String FeedbackPayload :=
  let feedbackText := trimString rawText
  if !jsTruthy selectedFeedback && feedbackText == "" then
    .error "Please select a feedback option or provide additional feedback"
  else
    .ok { preset := selectedFeedback, text := feedbackText }

/-- Modelled from the spec: the repository has no Fingerprinter — no source
file computes a structural digest (the background handlers only forward a
caller-supplied `domDigest`, defaulting to the string `unknown`). Per
§4.1, the input is a structural summary (element-type counts, depth
profile, container identifiers — here a list of summary tokens), which is
canonicalized by sorting before hashing. -/
def canonicalizeSummary (summary : List String) : List String :=
  summary.insertionSort (· ≤ ·)

/-- Modelled from the spec: a strong non-cryptographic rolling hash (FNV/djb2
style, 32-bit) over a string, seeded with `acc`. -/
def hashString (acc : Nat) (s : String) : Nat :=
  s.data.foldl (fun h c => (h * 31 + c.toNat) % 4294967296) acc

/-- Modelled from the spec: hash of a canonical summary, separating the
tokens so concatenation boundaries stay distinguishable. -/
def hashSummary (tokens : List String) : Nat :=
  tokens.foldl (fun h s => hashString ((h * 131 + 7) % 4294967296) s) 5381

/-- Lower-case hex digit for a nibble. -/
def hexDigit (n : Nat) : Char :=
  if n < 10 then Char.ofNat (48 + n) else Char.ofNat (87 + n)

/-- Fixed-length (8 hex characters, URL-safe, lower-case) rendering of a
32-bit hash. -/
def toHex8 (n : Nat) : String :=
  String.mk ((List.range 8).map (fun i => hexDigit (n / 16 ^ (7 - i) % 16)))

/-- Modelled from the spec: the Fingerprinter — canonicalize the structural
summary by sorting, then hash to a fixed-length URL-safe digest. -/
def fingerprintSummary (summary : List String) : String :=
  toHex8 (hashSummary (canonicalizeSummary summary))

/-- Modelled from the spec's words (§4.3, for comparison with the
domain-keyed source store): `Lookup(domain, era, fingerprint)` — an entry
matches only when the stored object under the domain carries exactly the
requested era and fingerprint. -/
def specLookupTriple (sites : Sites) (domain era fingerprint : String) :
    Option JsObj :=
  match sitesFind sites domain with
  | none => none
  | some o =>
      if objGet o "era" = some era ∧ objGet o "fingerprint" = some fingerprint
      then some o else none

section BasicLemmas

theorem objGet_objAssign (old upd : JsObj) (k : String) :
    objGet (objAssign old upd) k =
      match objGet upd k with
      | some v => some v
      | none => objGet old k := by
  induction old with
  | nil =>
    cases h : objGet upd k with
    | none => simp [objAssign, h, objGet]
    | some v => simp [objAssign, h]
  | cons p rest ih =>
    obtain ⟨pk, pv⟩ := p
    cases h : objGet upd k with
    | some v =>
      simp only [h] at ih
      by_cases hk : objHasKey upd pk = true
      · simp [objAssign, hk, ih]
      · by_cases hkey : k = pk
        · exfalso
          unfold objHasKey at hk
          rw [hkey] at h
          rw [h] at hk
          simp at hk
        · simp [objAssign, hk, objGet, hkey, ih]
    | none =>
      simp only [h] at ih
      by_cases hk : objHasKey upd pk = true
      · by_cases hkey : k = pk
        · exfalso
          unfold objHasKey at hk
          rw [hkey] at h
          rw [h] at hk
          simp at hk
        · simp [objAssign, hk, objGet, hkey, ih]
      · by_cases hkey : k = pk
        · simp [objAssign, hk, objGet, hkey]
        · simp [objAssign, hk, objGet, hkey, ih]

theorem objGet_objAssign_of_none (old upd : JsObj) (k : String)
    (h : objGet upd k = none) :
    objGet (objAssign old upd) k = objGet old k := by
  rw [objGet_objAssign, h]

theorem objGet_objAssign_of_some (old upd : JsObj) (k v : String)
    (h : objGet upd k = some v) :
    objGet (objAssign old upd) k = some v := by
  rw [objGet_objAssign, h]

theorem sitesFind_sitesUpdate_self (sites : Sites) (d : String) (e : JsObj) :
    sitesFind (sitesUpdate sites d e) d = some e := by
  induction sites with
  | nil => simp [sitesUpdate, sitesFind]
  | cons p rest ih =>
    obtain ⟨pk, po⟩ := p
    by_cases h : d = pk
    · simp [sitesUpdate, sitesFind, h]
    · simp [sitesUpdate, sitesFind, h, ih]

theorem sitesFind_sitesUpdate_other (sites : Sites) (d d' : String) (e : JsObj)
    (h : d' ≠ d) :
    sitesFind (sitesUpdate sites d e) d' = sitesFind sites d' := by
  induction sites with
  | nil => simp [sitesUpdate, sitesFind, h]
  | cons p rest ih =>
    obtain ⟨pk, po⟩ := p
    by_cases hd : d = pk
    · subst hd
      simp [sitesUpdate, sitesFind, h, ih]
    · by_cases hd' : d' = pk
      · simp [sitesUpdate, sitesFind, hd, hd']
      · simp [sitesUpdate, sitesFind, hd, hd', ih]

theorem getSite_setSite_self (sites : Sites) (d : String) (data : JsObj) :
    getSite (setSite sites d data) d = objAssign (getSite sites d) data := by
  simp [setSite, getSite, sitesFind_sitesUpdate_self]

theorem getSite_setSite_other (sites : Sites) (d d' : String) (data : JsObj)
    (h : d' ≠ d) :
    getSite (setSite sites d data) d' = getSite sites d' := by
  simp [setSite, getSite, sitesFind_sitesUpdate_other _ _ _ _ h]

/-- The normalizer always lands in the canonical state set. -/
theorem normalizeApprovalState_mem (s : Option String) :
    APPROVAL_STATES.contains (normalizeApprovalState s) = true := by
  cases s with
  | none => decide
  | some v =>
    simp only [normalizeApprovalState]
    by_cases h1 : v = ""
    · rw [if_pos h1]; decide
    · rw [if_neg h1]
      by_cases h2 : APPROVAL_STATES.contains v = true
      · rw [if_pos h2]; exact h2
      · rw [if_neg h2]
        by_cases h3 : v = "unknown"
        · rw [if_pos h3]; decide
        · rw [if_neg h3]; decide

/-- The normalizer fixes canonical states. -/
theorem normalizeApprovalState_of_canonical (v : String)
    (h : APPROVAL_STATES.contains v = true) :
    normalizeApprovalState (some v) = v := by
  have hv : v ≠ "" := by
    intro he
    subst he
    revert h
    decide
  simp only [normalizeApprovalState]
  rw [if_neg hv, if_pos h]

/-- Normalising is idempotent. -/
theorem normalizeApprovalState_idem (s : Option String) :
    normalizeApprovalState (some (normalizeApprovalState s)) = normalizeApprovalState s :=
  normalizeApprovalState_of_canonical _ (normalizeApprovalState_mem s)

/-- A non-canonical stored value (or an absent one) normalises to
`pending`. -/
theorem normalizeApprovalState_of_noncanonical (s : Option String)
    (h : ∀ v, s = some v → APPROVAL_STATES.contains v = false) :
    normalizeApprovalState s = "pending" := by
  cases s with
  | none => rfl
  | some v =>
    have hv := h v rfl
    simp only [normalizeApprovalState]
    by_cases h1 : v = ""
    · rw [if_pos h1]
    · rw [if_neg h1, if_neg (fun hc => by rw [hc] at hv; simp at hv)]
      by_cases h3 : v = "unknown"
      · rw [if_pos h3]
      · rw [if_neg h3]

theorem objGet_getSite_setSite_of_none (sites : Sites) (d k : String)
    (data : JsObj) (h : objGet data k = none) :
    objGet (getSite (setSite sites d data) d) k = objGet (getSite sites d) k := by
  rw [getSite_setSite_self, objGet_objAssign_of_none _ _ _ h]

theorem objGet_getSite_setSite_of_some (sites : Sites) (d k v : String)
    (data : JsObj) (h : objGet data k = some v) :
    objGet (getSite (setSite sites d data) d) k = some v := by
  rw [getSite_setSite_self, objGet_objAssign_of_some _ _ _ _ h]

theorem sitesFind_map (g : JsObj → JsObj) (sites : Sites) (d : String) :
    sitesFind (sites.map (fun p => (p.1, g p.2))) d = (sitesFind sites d).map g := by
  induction sites with
  | nil => rfl
  | cons p rest ih =>
    obtain ⟨pk, po⟩ := p
    by_cases h : d = pk
    · simp [sitesFind, h]
    · simp [sitesFind, h, ih]

/-- When the requested target is not in the transition table row of the
normalized current state, `transitionApprovalState` takes the failure
branch: callback gets the error naming both states, storage untouched. -/
theorem transitionApprovalState_not_edge (sites : Sites) (d t now : String)
    (h : (APPROVAL_TRANSITIONS
        (normalizeApprovalState (objGet (getSite sites d) "approvalStatus"))).contains t
      = false) :
    transitionApprovalState sites d t now =
      ({ success := false,
         error := some ("Invalid approval transition " ++
           normalizeApprovalState (objGet (getSite sites d) "approvalStatus") ++
           " -> " ++ t),
         data := some (getSite sites d) }, sites) := by
  have hcan : canTransitionApproval
      (some (normalizeApprovalState (objGet (getSite sites d) "approvalStatus"))) t
        = false := by
    unfold canTransitionApproval
    rw [normalizeApprovalState_idem]
    by_cases he : normalizeApprovalState (objGet (getSite sites d) "approvalStatus") = t
    · simp [he]
    · rw [if_neg he]
      exact h
  simp [transitionApprovalState, hcan]

/-- When the requested target is a table edge from the normalized current
state, `transitionApprovalState` succeeds and writes the update. -/
theorem transitionApprovalState_edge (sites : Sites) (d t now : String)
    (h : canTransitionApproval
      (some (normalizeApprovalState (objGet (getSite sites d) "approvalStatus"))) t
        = true) :
    (transitionApprovalState sites d t now).1.success = true ∧
    (transitionApprovalState sites d t now).2 =
      setSite sites d [("approvalStatus", t), ("approvalUpdatedAt", now)] := by
  simp [transitionApprovalState, h]

end BasicLemmas

/-- C1: for every pair of approval states (from, to) drawn from
{pending, approved, rejected, processing}, a requested transition is
accepted exactly along the table edges — pending → approved/rejected/
processing, rejected → processing/pending, processing → pending/rejected,
approved → nothing — and every accepted transition sets the stored
`approvalStatus` to the target state and stamps `approvalUpdatedAt`. -/
theorem c1_transition_table_and_update
    (f t : String) (hf : f ∈ APPROVAL_STATES) (ht : t ∈ APPROVAL_STATES) :
    (canTransitionApproval (some f) t = true ↔
      (f, t) ∈ [("pending", "approved"), ("pending", "rejected"),
        ("pending", "processing"), ("rejected", "processing"),
        ("rejected", "pending"), ("processing", "pending"),
        ("processing", "rejected")]) ∧
    (∀ (sites : Sites) (d now : String),
      normalizeApprovalState (objGet (getSite sites d) "approvalStatus") = f →
      canTransitionApproval (some f) t = true →
      (transitionApprovalState sites d t now).1.success = true ∧
      objGet (getSite (transitionApprovalState sites d t now).2 d)
        "approvalStatus" = some t ∧
      objGet (getSite (transitionApprovalState sites d t now).2 d)
        "approvalUpdatedAt" = some now) := by
  constructor
  · simp only [APPROVAL_STATES] at hf ht
    fin_cases hf <;> fin_cases ht <;> decide
  · intro sites d now hcur hcan
    rw [← hcur] at hcan
    obtain ⟨hs, hst⟩ := transitionApprovalState_edge sites d t now hcan
    refine ⟨hs, ?_, ?_⟩
    · rw [hst]
      exact objGet_getSite_setSite_of_some sites d _ _ _ rfl
    · rw [hst]
      exact objGet_getSite_setSite_of_some sites d _ _ _ rfl

/-- C1 witness: the edge pending → approved, on a store holding a pending
entry for `example.com`, succeeds and stamps both fields. -/
theorem c1_transition_table_and_update_witness :
    canTransitionApproval (some "pending") "approved" = true ∧
    (transitionApprovalState [("example.com", [("approvalStatus", "pending")])]
      "example.com" "approved" "t1").1.success = true ∧
    objGet (getSite (transitionApprovalState
      [("example.com", [("approvalStatus", "pending")])]
      "example.com" "approved" "t1").2 "example.com") "approvalStatus"
        = some "approved" := by
  have h := (c1_transition_table_and_update "pending" "approved"
    (by decide) (by decide)).2
    [("example.com", [("approvalStatus", "pending")])] "example.com" "t1"
    (by decide) (by decide)
  exact ⟨by decide, h.1, h.2.1⟩

/-- C2: a requested target state that is not a table edge from the entry's
normalized current state makes `transitionApprovalState` fail with an error
naming both the current and the requested state, and leaves the stored
sites record exactly as it was. -/
theorem c2_invalid_transition_rejected
    (sites : Sites) (d t now : String)
    (h : (APPROVAL_TRANSITIONS
        (normalizeApprovalState (objGet (getSite sites d) "approvalStatus"))).contains t
      = false) :
    (transitionApprovalState sites d t now).1.success = false ∧
    (transitionApprovalState sites d t now).1.error =
      some ("Invalid approval transition " ++
        normalizeApprovalState (objGet (getSite sites d) "approvalStatus") ++
        " -> " ++ t) ∧
    (transitionApprovalState sites d t now).2 = sites := by
  rw [transitionApprovalState_not_edge sites d t now h]
  exact ⟨rfl, rfl, rfl⟩

/-- C2 witness: approved → pending is not an edge; the request fails with
the error naming both states and storage is unchanged. -/
theorem c2_invalid_transition_rejected_witness :
    (transitionApprovalState [("example.com", [("approvalStatus", "approved")])]
      "example.com" "pending" "t1").1.success = false ∧
    (transitionApprovalState [("example.com", [("approvalStatus", "approved")])]
      "example.com" "pending" "t1").1.error =
      some "Invalid approval transition approved -> pending" ∧
    (transitionApprovalState [("example.com", [("approvalStatus", "approved")])]
      "example.com" "pending" "t1").2 =
      [("example.com", [("approvalStatus", "approved")])] := by
  have h := c2_invalid_transition_rejected
    [("example.com", [("approvalStatus", "approved")])] "example.com" "pending" "t1"
    (by decide)
  exact ⟨h.1, by rw [h.2.1]; decide, h.2.2⟩

/-- C3 counterexample: the store is keyed by domain alone, not by the
(domain, era, fingerprint) triple. Putting an entry for
(example.com, win95, fp1) and then one for (example.com, geocities, fp2)
leaves the first triple unreachable — the spec-worded triple lookup misses —
so entries for the same domain under a different era/fingerprint do not
coexist; and a put of partial data merges over the prior entry rather than
fully replacing it. -/
theorem c3_counterexample :
    specLookupTriple
      (setSite (setSite [] "example.com"
          [("era", "win95"), ("fingerprint", "fp1"), ("css", "c1")])
        "example.com"
        [("era", "geocities"), ("fingerprint", "fp2"), ("css", "c2")])
      "example.com" "win95" "fp1" = none ∧
    specLookupTriple
      (setSite [] "example.com"
        [("era", "win95"), ("fingerprint", "fp1"), ("css", "c1")])
      "example.com" "win95" "fp1" =
      some [("era", "win95"), ("fingerprint", "fp1"), ("css", "c1")] ∧
    getSite
      (setSite (setSite [] "example.com"
          [("era", "win95"), ("fingerprint", "fp1"), ("css", "c1")])
        "example.com" [("css", "c2")])
      "example.com" ≠ [("css", "c2")] := by
  decide

/-- C3 amended: the store is keyed by the domain alone; `setSite` merges
its data over the prior entry for that domain (`Object.assign`), so a put
followed by `getSite` of the same domain returns that merge — equal to the
data itself exactly when the domain was previously absent — and a put
leaves every other domain's entry unchanged. -/
theorem c3_amended_domain_keyed_store (sites : Sites) (d : String) (data : JsObj) :
    getSite (setSite sites d data) d = objAssign (getSite sites d) data ∧
    (sitesFind sites d = none → getSite (setSite sites d data) d = data) ∧
    (∀ d', d' ≠ d → getSite (setSite sites d data) d' = getSite sites d') := by
  refine ⟨getSite_setSite_self sites d data, ?_,
    fun d' h => getSite_setSite_other sites d d' data h⟩
  intro hnone
  rw [getSite_setSite_self]
  simp [getSite, hnone, objAssign]

/-- C3 amended witness: a first put for a fresh domain round-trips exactly,
and a put for one domain does not disturb another. -/
theorem c3_amended_domain_keyed_store_witness :
    getSite (setSite [] "example.com" [("era", "win95"), ("css", "c1")])
      "example.com" = [("era", "win95"), ("css", "c1")] ∧
    getSite (setSite [("other.org", [("css", "keep")])] "example.com"
      [("css", "c1")]) "other.org" = [("css", "keep")] := by
  refine ⟨(c3_amended_domain_keyed_store [] "example.com"
    [("era", "win95"), ("css", "c1")]).2.1 rfl, ?_⟩
  exact (c3_amended_domain_keyed_store [("other.org", [("css", "keep")])]
    "example.com" [("css", "c1")]).2.2 "other.org" (by decide)

/-- C4: any stored approval status that is not one of the four canonical
states — an absent value and the legacy string `unknown` included — is
normalized to `pending` (never to `approved`) by `normalizeApprovalState`,
and the startup pass `normalizeStoredStates` writes exactly that
normalization into every stored entry. -/
theorem c4_noncanonical_normalizes_to_pending
    (s : Option String)
    (hs : ∀ v, s = some v → APPROVAL_STATES.contains v = false)
    (sites : Sites) (d : String) (e : JsObj)
    (he : sitesFind sites d = some e)
    (hne : ∀ v, objGet e "approvalStatus" = some v →
      APPROVAL_STATES.contains v = false) :
    normalizeApprovalState s = "pending" ∧
    normalizeApprovalState s ≠ "approved" ∧
    normalizeApprovalState (some "unknown") = "pending" ∧
    normalizeApprovalState none = "pending" ∧
    sitesFind (normalizeStoredStates sites) d = some (normalizeEntry e) ∧
    objGet (normalizeEntry e) "approvalStatus" = some "pending" := by
  have hnorm : normalizeApprovalState s = "pending" :=
    normalizeApprovalState_of_noncanonical s hs
  have hnorm_e : normalizeApprovalState (objGet e "approvalStatus") = "pending" :=
    normalizeApprovalState_of_noncanonical _ hne
  have hcond : ¬ (objGet e "approvalStatus" =
      some (normalizeApprovalState (objGet e "approvalStatus"))) := by
    rw [hnorm_e]
    intro hc
    have hcontr := hne "pending" hc
    revert hcontr
    decide
  refine ⟨hnorm, by rw [hnorm]; decide, by decide, rfl, ?_, ?_⟩
  · rw [normalizeStoredStates, sitesFind_map, he]
    rfl
  · unfold normalizeEntry
    rw [if_neg hcond, hnorm_e]
    exact objGet_objAssign_of_some _ _ _ _ rfl

/-- C4 witness: the legacy value `unknown` stored for a domain is
normalized to `pending` by the startup pass, and is never read as
`approved`. -/
theorem c4_noncanonical_normalizes_to_pending_witness :
    normalizeApprovalState (some "unknown") = "pending" ∧
    normalizeApprovalState (some "unknown") ≠ "approved" ∧
    sitesFind (normalizeStoredStates
        [("example.com", [("approvalStatus", "unknown")])]) "example.com" =
      some (normalizeEntry [("approvalStatus", "unknown")]) ∧
    objGet (normalizeEntry [("approvalStatus", "unknown")]) "approvalStatus" =
      some "pending" := by
  have h := c4_noncanonical_normalizes_to_pending (some "unknown")
    (by intro v hv; cases hv; decide)
    [("example.com", [("approvalStatus", "unknown")])] "example.com"
    [("approvalStatus", "unknown")] (by decide)
    (by intro v hv; simp [objGet] at hv; cases hv; decide)
  exact ⟨h.1, h.2.1, h.2.2.2.2.1, h.2.2.2.2.2⟩

/-- Helper for the handler proofs: a transition to `processing` succeeds
from a normalized `pending` or `rejected` state. -/
theorem canTransition_to_processing (f : String)
    (h : f = "pending" ∨ f = "rejected") :
    canTransitionApproval (some f) "processing" = true := by
  rcases h with h | h <;> rw [h] <;> decide

/-- C5 counterexample: on a failing proxy response the `GENERATE_STYLE`
caller receives `success:false` with the raw proxy error and no css at all
(no fallback), and the entry is left in `processing`, not `rejected`. -/
theorem c5_counterexample :
    (handleGenerateStyle [] "example.com" "win95" "digest1" true
      (.fail "proxy exploded") "t0").1.success = false ∧
    (handleGenerateStyle [] "example.com" "win95" "digest1" true
      (.fail "proxy exploded") "t0").1.css = none ∧
    (handleGenerateStyle [] "example.com" "win95" "digest1" true
      (.fail "proxy exploded") "t0").1.error = some "proxy exploded" ∧
    objGet (getSite (handleGenerateStyle [] "example.com" "win95" "digest1" true
      (.fail "proxy exploded") "t0").2 "example.com") "approvalStatus" =
      some "processing" := by
  decide

/-- C5 amended: when the external generation call fails (a
`{success:false}` proxy response), the `GENERATE_STYLE` caller receives a
failure response that carries the error and no css — there is no fallback
stylesheet — and the affected entry stays in `processing`; it never reaches
`rejected`. -/
theorem c5_amended_failure_leaves_processing
    (sites : Sites) (d era dig now err : String)
    (hd : ¬ d = "") (he : ¬ era = "") (hg : ¬ dig = "")
    (hstate : normalizeApprovalState (objGet (getSite sites d) "approvalStatus")
        = "pending" ∨
      normalizeApprovalState (objGet (getSite sites d) "approvalStatus")
        = "rejected") :
    (handleGenerateStyle sites d era dig true (.fail err) now).1.success = false ∧
    (handleGenerateStyle sites d era dig true (.fail err) now).1.error
      = some err ∧
    (handleGenerateStyle sites d era dig true (.fail err) now).1.css = none ∧
    objGet (getSite (handleGenerateStyle sites d era dig true (.fail err) now).2 d)
      "approvalStatus" = some "processing" := by
  have hcan := canTransition_to_processing _ hstate
  obtain ⟨hs, hst⟩ := transitionApprovalState_edge sites d "processing" now hcan
  unfold handleGenerateStyle
  rw [if_neg (by simp [hd, he, hg]), if_neg (by simp)]
  simp only [hs, Bool.true_eq_false, if_false]
  refine ⟨trivial, trivial, trivial, ?_⟩
  rw [objGet_getSite_setSite_of_none
      ((transitionApprovalState sites d "processing" now).2) d "approvalStatus"
      [("cacheStatus", "processing")] rfl, hst]
  exact objGet_getSite_setSite_of_some sites d "approvalStatus" "processing"
    [("approvalStatus", "processing"), ("approvalUpdatedAt", now)] rfl

/-- C5 amended witness: concrete failing generation for a fresh (pending)
entry. -/
theorem c5_amended_failure_leaves_processing_witness :
    (handleGenerateStyle [] "example.com" "win95" "digest1" true
      (.fail "boom") "t0").1.success = false ∧
    (handleGenerateStyle [] "example.com" "win95" "digest1" true
      (.fail "boom") "t0").1.error = some "boom" ∧
    objGet (getSite (handleGenerateStyle [] "example.com" "win95" "digest1" true
      (.fail "boom") "t0").2 "example.com") "approvalStatus" =
      some "processing" := by
  have h := c5_amended_failure_leaves_processing [] "example.com" "win95"
    "digest1" "t0" "boom" (by decide) (by decide) (by decide) (Or.inl rfl)
  exact ⟨h.1, h.2.1, h.2.2.2⟩

/-- C6 counterexample: while an entry is `processing`, a second
`REGENERATE_STYLE` request for the same domain is answered with a
`success:false` InvalidTransition error (processing → processing) — it is
rejected as an error instead of attaching to the outstanding generation. -/
theorem c6_counterexample :
    (handleRegenerateStyle [("example.com", [("approvalStatus", "processing")])]
      "example.com" "t1").1.success = false ∧
    (handleRegenerateStyle [("example.com", [("approvalStatus", "processing")])]
      "example.com" "t1").1.error =
      some "Invalid approval transition processing -> processing" := by
  decide

/-- C6 amended: there is no coalescing. A Regenerate request for a domain
whose entry is already (normalized) `processing` fails with the
InvalidTransition error `processing -> processing`, the stored sites record
is left unchanged, and the handler returns before any generation request is
issued (the failure branch responds immediately). -/
theorem c6_amended_regenerate_while_processing_fails
    (sites : Sites) (d now : String)
    (h : normalizeApprovalState (objGet (getSite sites d) "approvalStatus")
      = "processing") :
    (handleRegenerateStyle sites d now).1.success = false ∧
    (handleRegenerateStyle sites d now).1.error =
      some "Invalid approval transition processing -> processing" ∧
    (handleRegenerateStyle sites d now).2 = sites := by
  have htab : (APPROVAL_TRANSITIONS
      (normalizeApprovalState (objGet (getSite sites d) "approvalStatus"))).contains
        "processing" = false := by
    rw [h]
    decide
  unfold handleRegenerateStyle
  rw [transitionApprovalState_not_edge sites d "processing" now htab, h]
  exact ⟨rfl, rfl, rfl⟩

/-- C6 amended witness: concrete second request against a processing
entry. -/
theorem c6_amended_regenerate_while_processing_fails_witness :
    (handleRegenerateStyle [("example.com", [("approvalStatus", "processing")])]
      "example.com" "t2").1.error =
      some "Invalid approval transition processing -> processing" ∧
    (handleRegenerateStyle [("example.com", [("approvalStatus", "processing")])]
      "example.com" "t2").2 =
      [("example.com", [("approvalStatus", "processing")])] :=
  ⟨(c6_amended_regenerate_while_processing_fails
      [("example.com", [("approvalStatus", "processing")])] "example.com" "t2"
      (by decide)).2.1,
   (c6_amended_regenerate_while_processing_fails
      [("example.com", [("approvalStatus", "processing")])] "example.com" "t2"
      (by decide)).2.2⟩

/-- On a table edge to `processing`, `REGENERATE_STYLE` responds with
success and the store after the handler is the transition update followed
by the `cacheStatus: regenerating` merge. -/
theorem handleRegenerateStyle_edge (sites : Sites) (d now : String)
    (h : canTransitionApproval (some (normalizeApprovalState
      (objGet (getSite sites d) "approvalStatus"))) "processing" = true) :
    (handleRegenerateStyle sites d now).1.success = true ∧
    (handleRegenerateStyle sites d now).2 =
      setSite (setSite sites d
        [("approvalStatus", "processing"), ("approvalUpdatedAt", now)]) d
        [("cacheStatus", "regenerating")] := by
  obtain ⟨hs, hst⟩ := transitionApprovalState_edge sites d "processing" now h
  constructor
  · simp [handleRegenerateStyle, hs]
  · simp [handleRegenerateStyle, hs, hst]

/-- A delivered `APPLY_STYLE` with css and domain present marks the cache
applied and then requests the transition to `pending`. -/
theorem handleApplyStyle_delivered (sites : Sites) (d css now : String)
    (hcss : ¬ css = "") (hd : ¬ d = "") :
    (handleApplyStyle sites d css true now).2 =
      (transitionApprovalState (setSite sites d [("cacheStatus", "applied")])
        d "pending" now).2 := by
  simp [handleApplyStyle, hcss, hd]

/-- C7 counterexample: a full successful feedback regeneration on a
`rejected` entry — `REGENERATE_STYLE` followed by the generated css being
applied via `APPLY_STYLE` — leaves `regenerationCount` and
`feedbackHistory` absent from the entry (no field is ever created,
incremented or appended), refuting `regenerationCount` becoming 1 and
`feedbackHistory` reaching length 1. -/
theorem c7_counterexample :
    objGet (getSite (handleApplyStyle
        (handleRegenerateStyle [("example.com", [("approvalStatus", "rejected")])]
          "example.com" "t1").2
        "example.com" "generated-css" true "t2").2 "example.com")
      "approvalStatus" = some "pending" ∧
    objGet (getSite (handleApplyStyle
        (handleRegenerateStyle [("example.com", [("approvalStatus", "rejected")])]
          "example.com" "t1").2
        "example.com" "generated-css" true "t2").2 "example.com")
      "regenerationCount" = none ∧
    objGet (getSite (handleApplyStyle
        (handleRegenerateStyle [("example.com", [("approvalStatus", "rejected")])]
          "example.com" "t1").2
        "example.com" "generated-css" true "t2").2 "example.com")
      "feedbackHistory" = none := by
  decide

/-- C7 amended: `REGENERATE_STYLE` on a (normalized) `rejected` entry
succeeds and moves it to `processing`; the entry reaches `pending` only
when a subsequent `APPLY_STYLE` command delivers the css to the tab; and
throughout the whole path the code keeps no regeneration counter and no
feedback history — both fields are exactly as they were before the
regeneration. -/
theorem c7_amended_regeneration_path
    (sites : Sites) (d now now2 css : String)
    (hd : ¬ d = "") (hcss : ¬ css = "")
    (hrej : normalizeApprovalState (objGet (getSite sites d) "approvalStatus")
      = "rejected") :
    (handleRegenerateStyle sites d now).1.success = true ∧
    objGet (getSite (handleRegenerateStyle sites d now).2 d) "approvalStatus"
      = some "processing" ∧
    objGet (getSite (handleApplyStyle (handleRegenerateStyle sites d now).2
        d css true now2).2 d) "approvalStatus" = some "pending" ∧
    objGet (getSite (handleApplyStyle (handleRegenerateStyle sites d now).2
        d css true now2).2 d) "regenerationCount" =
      objGet (getSite sites d) "regenerationCount" ∧
    objGet (getSite (handleApplyStyle (handleRegenerateStyle sites d now).2
        d css true now2).2 d) "feedbackHistory" =
      objGet (getSite sites d) "feedbackHistory" := by
  have hcan1 := canTransition_to_processing _ (Or.inr hrej)
  obtain ⟨hs1, hst1⟩ := handleRegenerateStyle_edge sites d now hcan1
  have hB : objGet (getSite (handleRegenerateStyle sites d now).2 d)
      "approvalStatus" = some "processing" := by
    rw [hst1, objGet_getSite_setSite_of_none
      (setSite sites d [("approvalStatus", "processing"), ("approvalUpdatedAt", now)])
      d "approvalStatus" [("cacheStatus", "regenerating")] rfl]
    exact objGet_getSite_setSite_of_some sites d "approvalStatus" "processing"
      [("approvalStatus", "processing"), ("approvalUpdatedAt", now)] rfl
  have happly := handleApplyStyle_delivered
    (handleRegenerateStyle sites d now).2 d css now2 hcss hd
  have hC : objGet (getSite (setSite (handleRegenerateStyle sites d now).2 d
      [("cacheStatus", "applied")]) d) "approvalStatus" = some "processing" := by
    rw [objGet_getSite_setSite_of_none (handleRegenerateStyle sites d now).2
      d "approvalStatus" [("cacheStatus", "applied")] rfl]
    exact hB
  have hcan2 : canTransitionApproval (some (normalizeApprovalState
      (objGet (getSite (setSite (handleRegenerateStyle sites d now).2 d
        [("cacheStatus", "applied")]) d) "approvalStatus"))) "pending" = true := by
    rw [hC]
    decide
  obtain ⟨hs2, hst2⟩ := transitionApprovalState_edge
    (setSite (handleRegenerateStyle sites d now).2 d [("cacheStatus", "applied")])
    d "pending" now2 hcan2
  refine ⟨hs1, hB, ?_, ?_, ?_⟩
  · rw [happly, hst2]
    exact objGet_getSite_setSite_of_some _ d "approvalStatus" "pending"
      [("approvalStatus", "pending"), ("approvalUpdatedAt", now2)] rfl
  · rw [happly, hst2,
      objGet_getSite_setSite_of_none _ d "regenerationCount"
        [("approvalStatus", "pending"), ("approvalUpdatedAt", now2)] rfl,
      objGet_getSite_setSite_of_none _ d "regenerationCount"
        [("cacheStatus", "applied")] rfl, hst1,
      objGet_getSite_setSite_of_none _ d "regenerationCount"
        [("cacheStatus", "regenerating")] rfl,
      objGet_getSite_setSite_of_none _ d "regenerationCount"
        [("approvalStatus", "processing"), ("approvalUpdatedAt", now)] rfl]
  · rw [happly, hst2,
      objGet_getSite_setSite_of_none _ d "feedbackHistory"
        [("approvalStatus", "pending"), ("approvalUpdatedAt", now2)] rfl,
      objGet_getSite_setSite_of_none _ d "feedbackHistory"
        [("cacheStatus", "applied")] rfl, hst1,
      objGet_getSite_setSite_of_none _ d "feedbackHistory"
        [("cacheStatus", "regenerating")] rfl,
      objGet_getSite_setSite_of_none _ d "feedbackHistory"
        [("approvalStatus", "processing"), ("approvalUpdatedAt", now)] rfl]

/-- C7 amended witness: the concrete rejected entry walks
rejected → processing → pending with both bookkeeping fields untouched. -/
theorem c7_amended_regeneration_path_witness :
    (handleRegenerateStyle [("example.com", [("approvalStatus", "rejected")])]
      "example.com" "t1").1.success = true ∧
    objGet (getSite (handleApplyStyle
        (handleRegenerateStyle [("example.com", [("approvalStatus", "rejected")])]
          "example.com" "t1").2 "example.com" "c" true "t2").2 "example.com")
      "approvalStatus" = some "pending" ∧
    objGet (getSite (handleApplyStyle
        (handleRegenerateStyle [("example.com", [("approvalStatus", "rejected")])]
          "example.com" "t1").2 "example.com" "c" true "t2").2 "example.com")
      "regenerationCount" = none := by
  have h := c7_amended_regeneration_path
    [("example.com", [("approvalStatus", "rejected")])] "example.com" "t1" "t2" "c"
    (by decide) (by decide) (by decide)
  refine ⟨h.1, h.2.2.1, ?_⟩
  rw [h.2.2.2.1]
  decide

/-- C8: the popup's regenerate submission is rejected with the validation
alert exactly when the feedback carries neither a truthy preset nor
non-empty (after trimming) free text — and in that case no
`REGENERATE_STYLE` request is built; otherwise the feedback object
`{preset, text}` is passed on in the request payload. -/
theorem c8_feedback_validation (p : Option String) (t : String) :
    (regenerateStyleFeedback p t =
        .error "Please select a feedback option or provide additional feedback" ↔
      jsTruthy p = false ∧ trimString t = "") ∧
    ((jsTruthy p = true ∨ trimString t ≠ "") →
      regenerateStyleFeedback p t = .ok ⟨p, trimString t⟩) := by
  by_cases hp : jsTruthy p = true <;> by_cases ht : trimString t = "" <;>
    simp [regenerateStyleFeedback, hp, ht]

/-- C8 witness: a bare preset is accepted and forwarded; an all-whitespace
submission with no preset is rejected. -/
theorem c8_feedback_validation_witness :
    regenerateStyleFeedback (some "too_modern") "" =
      .ok ⟨some "too_modern", ""⟩ ∧
    regenerateStyleFeedback none "   " =
      .error "Please select a feedback option or provide additional feedback" := by
  constructor
  · have h := (c8_feedback_validation (some "too_modern") "").2
      (Or.inl (by decide))
    rw [h]
    rfl
  · exact (c8_feedback_validation none "   ").1.2 ⟨by decide, by decide⟩

/-- C9: the spec-modelled Fingerprinter is deterministic, order-insensitive
and fixed-length — two structural summaries that are permutations of each
other (identical structure, different enumeration order) always produce the
same 8-character digest; being a pure function of the canonicalized
summary, the digest is identical across process restarts. -/
theorem c9_fingerprint_order_insensitive (s1 s2 : List String)
    (h : s1.Perm s2) :
    fingerprintSummary s1 = fingerprintSummary s2 ∧
    (fingerprintSummary s1).length = 8 := by
  have hcanon : canonicalizeSummary s1 = canonicalizeSummary s2 := by
    apply List.eq_of_perm_of_sorted
      (((List.perm_insertionSort _ s1).trans h).trans
        (List.perm_insertionSort _ s2).symm)
      (List.sorted_insertionSort _ s1) (List.sorted_insertionSort _ s2)
  constructor
  · unfold fingerprintSummary
    rw [hcanon]
  · simp [fingerprintSummary, toHex8, String.length]

/-- C9 witness: the same containers enumerated in two different orders
fingerprint identically, to a digest of length 8. -/
theorem c9_fingerprint_order_insensitive_witness :
    (["footer", "main", "nav"] : List String).Perm ["nav", "main", "footer"] ∧
    fingerprintSummary ["footer", "main", "nav"] =
      fingerprintSummary ["nav", "main", "footer"] ∧
    (fingerprintSummary ["footer", "main", "nav"]).length = 8 := by
  have h := c9_fingerprint_order_insensitive ["footer", "main", "nav"]
    ["nav", "main", "footer"] (by decide)
  exact ⟨by decide, h.1, h.2⟩

/-- C10: the `GET_SITE_STATUS` read is not side-effect free — when the
stored `approvalStatus` of the requested domain is non-canonical (absent
included) the handler writes the normalized `pending` back into storage,
and when it is already canonical the handler returns the storage record
unchanged. -/
theorem c10_get_site_status_writeback (sites : Sites) (d : String)
    (hd : ¬ d = "") :
    ((∀ v, objGet (getSite sites d) "approvalStatus" = some v →
        APPROVAL_STATES.contains v = false) →
      objGet (getSite (handleGetSiteStatus sites d).2 d) "approvalStatus" =
        some "pending") ∧
    (∀ v, objGet (getSite sites d) "approvalStatus" = some v →
      APPROVAL_STATES.contains v = true →
      (handleGetSiteStatus sites d).2 = sites) := by
  constructor
  · intro hnc
    have hnorm := normalizeApprovalState_of_noncanonical _ hnc
    have hcond : objGet (getSite sites d) "approvalStatus" ≠
        some (normalizeApprovalState (objGet (getSite sites d) "approvalStatus")) := by
      rw [hnorm]
      intro hc
      have hcontr := hnc "pending" hc
      revert hcontr
      decide
    have hbranch : (handleGetSiteStatus sites d).2 =
        setSite sites d [("approvalStatus",
          normalizeApprovalState (objGet (getSite sites d) "approvalStatus"))] := by
      simp [handleGetSiteStatus, hd, hcond]
    rw [hbranch, hnorm]
    exact objGet_getSite_setSite_of_some sites d "approvalStatus" "pending"
      [("approvalStatus", "pending")] rfl
  · intro v hv hcanon
    have hnorm : normalizeApprovalState
        (objGet (getSite sites d) "approvalStatus") = v := by
      rw [hv]
      exact normalizeApprovalState_of_canonical v hcanon
    have hcond : ¬ (objGet (getSite sites d) "approvalStatus" ≠
        some (normalizeApprovalState (objGet (getSite sites d) "approvalStatus"))) := by
      rw [hnorm, hv]
      simp
    simp [handleGetSiteStatus, hd, hcond]

/-- C10 witness: reading status for a domain stored as legacy `unknown`
persists `pending`; reading one stored as `approved` leaves storage
untouched. -/
theorem c10_get_site_status_writeback_witness :
    objGet (getSite (handleGetSiteStatus
        [("example.com", [("approvalStatus", "unknown")])] "example.com").2
      "example.com") "approvalStatus" = some "pending" ∧
    (handleGetSiteStatus [("example.com", [("approvalStatus", "approved")])]
      "example.com").2 =
      [("example.com", [("approvalStatus", "approved")])] := by
  constructor
  · refine (c10_get_site_status_writeback
      [("example.com", [("approvalStatus", "unknown")])] "example.com"
      (by decide)).1 ?_
    intro v hv
    rw [show objGet (getSite [("example.com", [("approvalStatus", "unknown")])]
      "example.com") "approvalStatus" = some "unknown" from rfl] at hv
    injection hv with hv2
    subst hv2
    decide
  · exact (c10_get_site_status_writeback
      [("example.com", [("approvalStatus", "approved")])] "example.com"
      (by decide)).2 "approved" (by decide) (by decide)
